import Mathlib

/-!
Verification development for the distributed hospital-appointment backend.

The definitions below are a shallow embedding of the JavaScript core:
the DistributedManager class (Bully leader election, Cristian clock
synchronization, best-effort replication, status reporting), the SQLite
Database wrapper (bookings, slots and servers tables), and the Express
route handlers for election, leader-update and replication messages.

Time-valued quantities coming from Date.now and JavaScript number
arithmetic are modelled as rationals (JavaScript numbers divide exactly
by 2 in the relevant range); SQL row values are modelled with Nat, Int,
String and Bool fields.  Network calls are modelled by a function from
the target server to an optional response: none stands for a timeout or
connection error, some r for an HTTP 200 reply carrying body r.
-/

set_option maxHeartbeats 1000000

namespace DC

/-- A cluster member, as configured in the DistributedManager constructor:
an id, a display name and a port. -/
structure Server where
  id : Nat
  name : String
  port : Nat
deriving DecidableEq

/-- The fixed three-server cluster hard-coded in the DistributedManager
constructor. -/
def servers : List Server :=
  [⟨1, "Server-Mumbai", 5001⟩, ⟨2, "Server-Delhi", 5002⟩, ⟨3, "Server-Bangalore", 5003⟩]

/-- Body of the JSON reply produced by the election endpoint. -/
structure ElectionReply where
  success : Bool
  message : String
deriving DecidableEq

/-- Result of handling one inbound election message at a node: the JSON
reply sent back, and the delay in milliseconds after which the node
schedules its own election (none when it schedules nothing).  Embeds the
handler of POST /api/servers/election. -/
structure ElectionHandlerResult where
  reply : ElectionReply
  delayedElectionMs : Option Nat
deriving DecidableEq

/-- Handler of POST /api/servers/election at a node with id selfId,
receiving candidateId in the request body.  If candidateId < selfId the
node replies success true with message "Server is alive" and schedules
its own Bully election after 1000 ms; otherwise it replies success false
with message "Server acknowledges election" and schedules nothing. -/
def electionHandler (selfId candidateId : Nat) : ElectionHandlerResult :=
  if candidateId < selfId then
    ⟨⟨true, "Server is alive"⟩, some 1000⟩
  else
    ⟨⟨false, "Server acknowledges election"⟩, none⟩

/-- Outcome of performBullyElection at the initiating node: the node
became leader, the node aborted after peer peerId replied with success
true, or the loop ended without the response counter matching (cannot
happen, kept for faithfulness to the final if in the source). -/
inductive ElectionOutcome where
  | leader : ElectionOutcome
  | abortedBy : Nat → ElectionOutcome
  | noAction : ElectionOutcome
deriving DecidableEq

/-- The servers with an id strictly greater than selfId, in list order;
the filter in performBullyElection. -/
def higherServers (selfId : Nat) : List Server :=
  servers.filter (fun s => selfId < s.id)

/-- The sequential loop of performBullyElection over the higher-id
servers: on a reply with success true the loop returns immediately with
abortedBy; on a reply with success false or on a network failure the
response counter is incremented and the loop continues; at the end the
node becomes leader exactly when the counter equals the total. -/
def electionLoop (net : Server → Option ElectionReply) (total : Nat) :
    List Server → Nat → ElectionOutcome
  | [], responses => if responses = total then .leader else .noAction
  | s :: rest, responses =>
    match net s with
    | some r =>
      if r.success then .abortedBy s.id
      else electionLoop net total rest (responses + 1)
    | none => electionLoop net total rest (responses + 1)

/-- performBullyElection from the DistributedManager: if no server has a
higher id, become leader at once; otherwise run the sequential election
loop over the higher-id servers. -/
def performBullyElection (selfId : Nat) (net : Server → Option ElectionReply) :
    ElectionOutcome :=
  if (higherServers selfId).isEmpty then .leader
  else electionLoop net (higherServers selfId).length (higherServers selfId) 0

/-- The JSON body returned by performClockSync (and relayed by the
clock-sync endpoints). -/
structure ClockSyncResult where
  adjustedTime : ℚ
  rtt : ℚ
  serverTime : ℚ
  clockOffset : ℚ
deriving DecidableEq

/-- performClockSync from the DistributedManager.  clientTime is the t0
taken from the request; now0 and now1 are the values of the two Date.now
calls made while the request is handled (serverTime uses the first, the
reply-received stamp t1 uses the second); clockOffset is the value of
this.clockOffset at that node.  The rtt field is t1 minus t0 and
adjustedTime is serverTime plus half of rtt, all computed by the
responder before the response is sent. -/
def performClockSync (clientTime now0 now1 clockOffset : ℚ) : ClockSyncResult :=
  let t0 := clientTime
  let serverTime := now0 + clockOffset
  let t1 := now1 + clockOffset
  let rtt := t1 - t0
  let adjustedTime := serverTime + rtt / 2
  ⟨adjustedTime, rtt, serverTime, clockOffset⟩

/-- The in-memory mutable fields of a DistributedManager instance that
the claims refer to. -/
structure ManagerState where
  serverId : Nat
  isLeader : Bool
  connections : Nat
  clockOffset : ℚ
deriving DecidableEq

/-- syncWithLeader from the DistributedManager.  net gives the optional
clock-sync response of each server (the code contacts the first server
in the list whose id differs from this node); startTime and endTime are
the Date.now values taken around the call, nowAtSet the Date.now value
taken when the offset is assigned.  A leader, a missing reference node,
or a failed call leaves the state unchanged; on success the offset is
set to the adjusted time minus the local clock. -/
def syncWithLeader (st : ManagerState) (net : Server → Option ClockSyncResult)
    (startTime endTime nowAtSet : ℚ) : ManagerState :=
  if st.isLeader then st
  else
    match servers.find? (fun s => s.id ≠ st.serverId) with
    | none => st
    | some leader =>
      match net leader with
      | none => st
      | some resp =>
        let rtt := endTime - startTime
        let adjustedTime := resp.serverTime + rtt / 2
        { st with clockOffset := adjustedTime - nowAtSet }

/-- One row of the bookings table of the SQLite database.  The schema
declares confirmation_id TEXT UNIQUE NOT NULL. -/
structure BookingRow where
  id : Nat
  doctor_id : Nat
  patient_name : String
  slot_time : String
  confirmation_id : String
  booking_timestamp : Int
  server_id : Nat
deriving DecidableEq

/-- The bookings table: its rows plus the next AUTOINCREMENT id. -/
structure BookingsTable where
  rows : List BookingRow
  nextId : Nat
deriving DecidableEq

/-- Database.createBooking: a single INSERT into bookings.  The UNIQUE
constraint on confirmation_id makes SQLite reject the insert when a row
with the same confirmation_id already exists, which the wrapper
surfaces as a rejected promise; otherwise the row is appended with the
caller-visible id and timestamp (createBooking stamps its own Date.now,
passed here as the now argument). -/
def createBooking (tbl : BookingsTable) (doctorId : Nat)
    (patientName slotTime confirmationId : String) (now : Int) (serverId : Nat) :
    Except String (BookingsTable × Nat × Int) :=
  if tbl.rows.any (fun r => r.confirmation_id == confirmationId) then
    .error "SQLITE_CONSTRAINT: UNIQUE constraint failed: bookings.confirmation_id"
  else
    .ok (⟨tbl.rows ++ [⟨tbl.nextId, doctorId, patientName, slotTime, confirmationId, now, serverId⟩],
          tbl.nextId + 1⟩, tbl.nextId, now)

/-- One row of the slots table of the SQLite database. -/
structure SlotRow where
  id : Nat
  doctor_id : Nat
  slot_time : String
  is_available : Bool
deriving DecidableEq

/-- Database.bookSlot: UPDATE slots SET is_available = 0 WHERE
doctor_id = ? AND slot_time = ? AND is_available = 1, resolving with
whether any row changed. -/
def bookSlot (slots : List SlotRow) (doctorId : Nat) (slotTime : String) :
    List SlotRow × Bool :=
  (slots.map (fun r =>
      if r.doctor_id == doctorId && r.slot_time == slotTime && r.is_available then
        { r with is_available := false }
      else r),
   slots.any (fun r => r.doctor_id == doctorId && r.slot_time == slotTime && r.is_available))

/-- The request body of POST /api/replicate/booking: the BookingCreated
replication event. -/
structure BookingData where
  doctorId : Nat
  patientName : String
  slotTime : String
  confirmationId : String
  bookingTimestamp : Int
  serverId : Nat
deriving DecidableEq

/-- The local SQLite state of one peer that booking replication touches:
its bookings table and its slots table. -/
structure PeerStore where
  bookings : BookingsTable
  slots : List SlotRow
deriving DecidableEq

/-- Handler of POST /api/replicate/booking at a peer: create the booking
locally (createBooking with the fields of the event and the local
Date.now, here the now argument), then mark the slot unavailable.  A
createBooking rejection is caught by the route and turned into a 500
response: the slot update is skipped and the store is unchanged. -/
def applyReplicatedBooking (store : PeerStore) (ev : BookingData) (now : Int) :
    Except String PeerStore :=
  match createBooking store.bookings ev.doctorId ev.patientName ev.slotTime
      ev.confirmationId now ev.serverId with
  | .error e => .error e
  | .ok (tbl, _, _) => .ok ⟨tbl, (bookSlot store.slots ev.doctorId ev.slotTime).1⟩

/-- The effect on a peer store of one delivered replication call: the
new store on success, the unchanged store when the handler answered with
an error status. -/
def deliverTo (store : PeerStore) (ev : BookingData) (now : Int) : PeerStore :=
  match applyReplicatedBooking store ev now with
  | .ok s => s
  | .error _ => store

/-- The servers other than selfId, in list order; the filter used by
replicateBooking, replicateSlotUpdate and notifyServersOfNewLeader. -/
def otherServers (selfId : Nat) : List Server :=
  servers.filter (fun s => s.id ≠ selfId)

/-- One iteration of the replication loop of replicateBooking, acting on
the map from server id to peer store: when the target is reachable its
store receives the event (a caught per-peer error leaves it unchanged);
when the call times out or the connection fails, nothing changes and the
loop moves on. -/
def replicateStep (ev : BookingData) (reachable : Nat → Bool) (nowAt : Nat → Int)
    (st : Nat → PeerStore) (s : Server) : Nat → PeerStore :=
  if reachable s.id then
    fun i => if i = s.id then deliverTo (st s.id) ev (nowAt s.id) else st i
  else st

/-- replicateBooking from the DistributedManager: a sequential loop over
the servers other than selfId, one POST per peer, every failure caught
and logged.  stores maps each server id to its local SQLite state;
nowAt gives each peer its own Date.now stamp. -/
def replicateBooking (selfId : Nat) (ev : BookingData) (reachable : Nat → Bool)
    (nowAt : Nat → Int) (stores : Nat → PeerStore) : Nat → PeerStore :=
  (otherServers selfId).foldl (replicateStep ev reachable nowAt) stores

/-- Handler of POST /api/replicate/slot at a peer: mark the slot
unavailable with bookSlot.  The route always replies with success; the
update changes nothing when no matching available slot exists. -/
def applyReplicatedSlot (store : PeerStore) (doctorId : Nat) (slotTime : String) :
    PeerStore :=
  ⟨store.bookings, (bookSlot store.slots doctorId slotTime).1⟩

/-- One iteration of the replication loop of replicateSlotUpdate: a
reachable target applies the slot update to its store; a timeout or
connection failure changes nothing and the loop moves on. -/
def replicateSlotStep (doctorId : Nat) (slotTime : String) (reachable : Nat → Bool)
    (st : Nat → PeerStore) (s : Server) : Nat → PeerStore :=
  if reachable s.id then
    fun i => if i = s.id then applyReplicatedSlot (st s.id) doctorId slotTime else st i
  else st

/-- replicateSlotUpdate from the DistributedManager: a sequential loop
over the servers other than selfId, one POST per peer carrying doctorId
and slotTime, every failure caught and logged. -/
def replicateSlotUpdate (selfId doctorId : Nat) (slotTime : String)
    (reachable : Nat → Bool) (stores : Nat → PeerStore) : Nat → PeerStore :=
  (otherServers selfId).foldl (replicateSlotStep doctorId slotTime reachable) stores

/-- The tagged union of write events the replication dispatcher fans
out: a created booking (POST /api/replicate/booking) or a slot marked
unavailable (POST /api/replicate/slot). -/
inductive ReplicationEvent where
  | bookingCreated : BookingData → ReplicationEvent
  | slotMarkedUnavailable : Nat → String → ReplicationEvent
deriving DecidableEq

/-- The effect of one delivered replication call on a peer store, by
event kind: a booking delivery runs the replicate-booking handler (a
caught rejection leaves the store unchanged); a slot delivery runs the
replicate-slot handler. -/
def deliverEvent (store : PeerStore) (ev : ReplicationEvent) (now : Int) : PeerStore :=
  match ev with
  | .bookingCreated b => deliverTo store b now
  | .slotMarkedUnavailable doctorId slotTime => applyReplicatedSlot store doctorId slotTime

/-- The replication dispatcher over an arbitrary ReplicationEvent: a
BookingCreated event goes through replicateBooking, a
SlotMarkedUnavailable event through replicateSlotUpdate. -/
def replicate (selfId : Nat) (ev : ReplicationEvent) (reachable : Nat → Bool)
    (nowAt : Nat → Int) (stores : Nat → PeerStore) : Nat → PeerStore :=
  match ev with
  | .bookingCreated b => replicateBooking selfId b reachable nowAt stores
  | .slotMarkedUnavailable doctorId slotTime =>
      replicateSlotUpdate selfId doctorId slotTime reachable stores

/-- One row of the servers table of the SQLite database.  is_leader is
stored as the integer 0 or 1 (the code compares it with 1); there is no
clock-offset column in the schema. -/
structure ServerRow where
  id : Nat
  name : String
  port : Nat
  connections : Nat
  is_leader : Nat
  last_heartbeat : Int
  status : String
deriving DecidableEq

/-- One element of the array returned by getServerStatus. -/
structure ServerStatusEntry where
  id : Nat
  name : String
  port : Nat
  connections : Nat
  isLeader : Bool
  lastHeartbeat : Int
  status : String
  clockOffset : ℚ
deriving DecidableEq

/-- The per-row mapping inside getServerStatus: the own row takes the
live in-memory connections and clockOffset of the manager, every other
row takes connections from the stored row and clockOffset 0; isLeader,
lastHeartbeat and status always come from the stored row. -/
def statusEntry (st : ManagerState) (server : ServerRow) : ServerStatusEntry :=
  { id := server.id
    name := server.name
    port := server.port
    connections := if server.id = st.serverId then st.connections else server.connections
    isLeader := server.is_leader == 1
    lastHeartbeat := server.last_heartbeat
    status := server.status
    clockOffset := if server.id = st.serverId then st.clockOffset else 0 }

/-- getServerStatus from the DistributedManager: read every row of the
servers table and map it through statusEntry. -/
def getServerStatus (st : ManagerState) (rows : List ServerRow) :
    List ServerStatusEntry :=
  rows.map (statusEntry st)

/-- The first UPDATE of Database.setLeader: is_leader set to 0 on every
row. -/
def clearLeaders (rows : List ServerRow) : List ServerRow :=
  rows.map (fun r => { r with is_leader := 0 })

/-- Database.setLeader: clear is_leader on all rows, then set it to 1 on
the row whose id equals serverId. -/
def setLeader (rows : List ServerRow) (serverId : Nat) : List ServerRow :=
  (clearLeaders rows).map (fun r => if r.id = serverId then { r with is_leader := 1 } else r)

/-- Database.updateServerStatus: UPDATE of connections, is_leader,
last_heartbeat (stamped with Date.now, the now argument) and status on
the row whose id equals serverId. -/
def updateServerStatus (rows : List ServerRow) (serverId connections : Nat)
    (isLeader : Bool) (now : Int) (status : String) : List ServerRow :=
  rows.map (fun r =>
    if r.id = serverId then
      { r with connections := connections, is_leader := if isLeader then 1 else 0,
               last_heartbeat := now, status := status }
    else r)

/-- The effect of becomeLeader on the servers table: setLeader for the
own id followed by updateServerStatus with isLeader true and status
active. -/
def becomeLeaderStore (rows : List ServerRow) (selfId connections : Nat) (now : Int) :
    List ServerRow :=
  updateServerStatus (setLeader rows selfId) selfId connections true now ("active")

/-- The rows of the servers table whose is_leader flag is set. -/
def leaderRows (rows : List ServerRow) : List ServerRow :=
  rows.filter (fun r => r.is_leader == 1)

/-! ## Leader election lemmas -/

lemma electionLoop_all_none (net : Server → Option ElectionReply)
    (l : List Server) : ∀ (responses total : Nat),
    (∀ s ∈ l, net s = none) → responses + l.length = total →
    electionLoop net total l responses = .leader := by
  induction l with
  | nil =>
    intro responses total _ htot
    simp only [List.length_nil, Nat.add_zero] at htot
    simp [electionLoop, htot]
  | cons s rest ih =>
    intro responses total hnone htot
    have hs : net s = none := hnone s (by simp)
    simp only [electionLoop, hs]
    refine ih (responses + 1) total (fun t ht => hnone t (by simp [ht])) ?_
    simp only [List.length_cons] at htot
    omega

lemma electionLoop_first_alive (net : Server → Option ElectionReply)
    (pre : List Server) : ∀ (s : Server) (post : List Server)
    (responses total : Nat) (r : ElectionReply),
    (∀ p ∈ pre, net p = none) → net s = some r → r.success = true →
    electionLoop net total (pre ++ s :: post) responses = .abortedBy s.id := by
  induction pre with
  | nil =>
    intro s post responses total r _ hs hsucc
    simp [electionLoop, hs, hsucc]
  | cons p pre ih =>
    intro s post responses total r hpre hs hsucc
    have hp : net p = none := hpre p (by simp)
    simp only [List.cons_append, electionLoop, hp]
    exact ih s post (responses + 1) total r (fun q hq => hpre q (by simp [hq])) hs hsucc

lemma electionLoop_exists_alive (net : Server → Option ElectionReply)
    (l : List Server) : ∀ (responses total : Nat),
    (∀ s ∈ l, net s ≠ none → ∃ r, net s = some r ∧ r.success = true) →
    (∃ s ∈ l, net s ≠ none) →
    ∃ p, electionLoop net total l responses = .abortedBy p := by
  induction l with
  | nil =>
    intro _ _ _ hex
    simp at hex
  | cons s rest ih =>
    intro responses total hproto hex
    cases hnet : net s with
    | some r =>
      obtain ⟨r2, hr2, hsucc⟩ := hproto s (by simp) (by simp [hnet])
      rw [hnet] at hr2
      obtain rfl : r = r2 := by injection hr2
      refine ⟨s.id, ?_⟩
      simp [electionLoop, hnet, hsucc]
    | none =>
      have hex2 : ∃ t ∈ rest, net t ≠ none := by
        obtain ⟨t, ht, hne⟩ := hex
        rcases List.mem_cons.mp ht with h | h
        · subst h
          exact absurd hnet hne
        · exact ⟨t, h, hne⟩
      simp only [electionLoop, hnet]
      exact ih (responses + 1) total (fun t ht h => hproto t (by simp [ht]) h) hex2

lemma mem_higherServers_lt {selfId : Nat} {s : Server}
    (hs : s ∈ higherServers selfId) : selfId < s.id :=
  of_decide_eq_true (List.mem_filter.mp hs).2

/-! ## Claim theorems: leader election -/

/-- Claim C3: initiateElection (performBullyElection) goes straight to
Leader when the node has no higher-id peers; it contacts the higher-id
peers sequentially, becomes Leader when every higher-id peer fails to
respond, and aborts, staying Follower, as soon as some higher-id peer is
responsive (such a peer, answering as the live election handler, always
replies success true because it outranks the candidate). -/
theorem bully_election_outcomes (selfId : Nat) (net : Server → Option ElectionReply)
    (hproto : ∀ s ∈ higherServers selfId,
      net s = none ∨ net s = some (electionHandler s.id selfId).reply) :
    (higherServers selfId = [] → performBullyElection selfId net = .leader) ∧
    ((∀ s ∈ higherServers selfId, net s = none) →
      performBullyElection selfId net = .leader) ∧
    (∀ s ∈ higherServers selfId, net s ≠ none →
      performBullyElection selfId net ≠ .leader ∧
      ∃ p, performBullyElection selfId net = .abortedBy p) := by
  refine ⟨?_, ?_, ?_⟩
  · intro h
    simp [performBullyElection, h]
  · intro hall
    by_cases hemp : (higherServers selfId).isEmpty
    · simp [performBullyElection, hemp]
    · simp only [performBullyElection, hemp, Bool.false_eq_true, if_false]
      exact electionLoop_all_none net _ 0 _ hall (by simp)
  · intro s hs hne
    have hproto2 : ∀ t ∈ higherServers selfId, net t ≠ none →
        ∃ r, net t = some r ∧ r.success = true := by
      intro t ht hne2
      rcases hproto t ht with h | h
      · exact absurd h hne2
      · refine ⟨(electionHandler t.id selfId).reply, h, ?_⟩
        simp [electionHandler, mem_higherServers_lt ht]
    have hemp : (higherServers selfId).isEmpty = false := by
      rcases h : higherServers selfId with _ | ⟨a, rest⟩
    -- the empty case is impossible because s is a member
      · rw [h] at hs
        simp at hs
      · simp
    obtain ⟨p, hp⟩ := electionLoop_exists_alive net (higherServers selfId) 0
      (higherServers selfId).length hproto2 ⟨s, hs, hne⟩
    have hres : performBullyElection selfId net = .abortedBy p := by
      simp only [performBullyElection, hemp, Bool.false_eq_true, if_false]
      exact hp
    refine ⟨?_, p, hres⟩
    rw [hres]
    simp

/-- Claim C3 witness: with selfId 1 and every peer down the node becomes
leader; with peer 2 responsive the election does not end in leadership. -/
theorem bully_election_outcomes_witness :
    performBullyElection 1 (fun _ => none) = .leader ∧
    performBullyElection 1
      (fun s => if s.id = 2 then some ⟨true, "Server is alive"⟩ else none) ≠ .leader :=
  ⟨(bully_election_outcomes 1 (fun _ => none) (by decide)).2.1 (by decide),
   ((bully_election_outcomes 1
       (fun s => if s.id = 2 then some ⟨true, "Server is alive"⟩ else none)
       (by decide)).2.2 ⟨2, "Server-Delhi", 5002⟩ (by decide) (by decide)).1⟩

/-- Claim C2 counterexample: node 3 handling an election message from
candidate 1 is alive, outranks the candidate and schedules its own
election, yet its reply carries success true, not success false; and an
initiator that receives success false from higher peer 2 (peer 3 down)
does not treat it as a live contender: it completes the loop and becomes
leader instead of aborting. -/
theorem election_success_polarity_counterexample :
    (electionHandler 3 1).reply.success = true ∧
    (electionHandler 3 1).delayedElectionMs = some 1000 ∧
    performBullyElection 1
      (fun s => if s.id = 2 then some ⟨false, "Server acknowledges election"⟩ else none)
      = .leader := by decide

/-- Claim C2 (amended): the election response carries success true
exactly when the responding node outranks the candidate and will itself
contend (scheduling its own delayed election); an initiator that
receives success true from the first responsive higher-id peer treats it
as a live contender and aborts its own election. -/
theorem election_success_true_means_contend :
    (∀ selfId candidateId : Nat,
      ((electionHandler selfId candidateId).reply.success = true ↔ candidateId < selfId) ∧
      ((electionHandler selfId candidateId).reply.success = true ↔
        (electionHandler selfId candidateId).delayedElectionMs ≠ none)) ∧
    (∀ (selfId : Nat) (net : Server → Option ElectionReply) (pre post : List Server)
      (s : Server) (r : ElectionReply),
      higherServers selfId = pre ++ s :: post → (∀ p ∈ pre, net p = none) →
      net s = some r → r.success = true →
      performBullyElection selfId net = .abortedBy s.id) := by
  constructor
  · intro selfId candidateId
    by_cases h : candidateId < selfId <;> simp [electionHandler, h]
  · intro selfId net pre post s r hsplit hpre hs hsucc
    have hemp : (higherServers selfId).isEmpty = false := by
      rw [hsplit]
      simp
    simp only [performBullyElection, hemp, Bool.false_eq_true, if_false]
    rw [hsplit]
    exact electionLoop_first_alive net pre s post 0 _ r hpre hs hsucc

/-- Claim C2 (amended) witness: node 3 replies success true to candidate
1, and initiator 1 aborts with peer 2 once peer 2 replies success true. -/
theorem election_success_true_means_contend_witness :
    (electionHandler 3 1).reply.success = true ∧
    performBullyElection 1
      (fun s => if s.id = 2 then some ⟨true, "Server is alive"⟩ else none)
      = .abortedBy 2 :=
  ⟨(election_success_true_means_contend.1 3 1).1.mpr (by decide),
   election_success_true_means_contend.2 1
     (fun s => if s.id = 2 then some ⟨true, "Server is alive"⟩ else none)
     [] [⟨3, "Server-Bangalore", 5003⟩] ⟨2, "Server-Delhi", 5002⟩
     ⟨true, "Server is alive"⟩ (by decide) (by simp) (by decide) (by decide)⟩

/-- Claim C7: on an election message with candidate id below the own id
the node replies success true "Server is alive" and schedules its own
election after 1000 ms; otherwise it replies success false
"Server acknowledges election" and schedules nothing. -/
theorem election_handler_cases (selfId candidateId : Nat) :
    (candidateId < selfId →
      electionHandler selfId candidateId = ⟨⟨true, "Server is alive"⟩, some 1000⟩) ∧
    (selfId ≤ candidateId →
      electionHandler selfId candidateId = ⟨⟨false, "Server acknowledges election"⟩, none⟩) := by
  constructor
  · intro h
    simp [electionHandler, h]
  · intro h
    simp [electionHandler, Nat.not_lt.mpr h]

/-- Claim C7 witness: the two handler branches at concrete ids. -/
theorem election_handler_cases_witness :
    electionHandler 3 1 = ⟨⟨true, "Server is alive"⟩, some 1000⟩ ∧
    electionHandler 1 3 = ⟨⟨false, "Server acknowledges election"⟩, none⟩ :=
  ⟨(election_handler_cases 3 1).1 (by decide), (election_handler_cases 1 3).2 (by decide)⟩

/-! ## Claim theorems: clock synchronization -/

/-- Claim C4 counterexample: the scenario of a simulated 40 ms round
trip with the server clock equal to the client clock and offset 0, with
clientSendTime 1000 and a symmetric network, so the request is handled
at local time 1020 (both Date.now calls read 1020).  The rtt field
returned by performClockSync is 20, not the 40 the caller measures, and
adjustedTime is 1030, not 1040: the responder computes both before the
response travels back, so the returned rtt is only the elapsed time up
to handling. -/
theorem clock_sync_rtt_counterexample :
    (performClockSync 1000 1020 1020 0).rtt = 20 ∧
    (performClockSync 1000 1020 1020 0).rtt ≠ 40 ∧
    (performClockSync 1000 1020 1020 0).adjustedTime = 1030 ∧
    (performClockSync 1000 1020 1020 0).adjustedTime ≠ 1040 := by
  norm_num [performClockSync]

/-- Claim C4 (amended): performClockSync returns serverTime equal to the
responder local clock plus its offset at handling; its rtt field is
computed by the responder itself as (local clock + offset) minus
clientSendTime at handling time, not by the caller after the response
arrives; adjustedTime is serverTime plus half of that rtt; and the
clockOffset field relays the responder offset.  (In the 40 ms scenario
of the counterexample these formulas give rtt 20 and adjustedTime
T + 30; the caller-side round trip of 40 ms is measured separately by
syncWithLeader from its own clock.) -/
theorem clock_sync_fields (clientTime now0 now1 offset : ℚ) :
    (performClockSync clientTime now0 now1 offset).serverTime = now0 + offset ∧
    (performClockSync clientTime now0 now1 offset).rtt = (now1 + offset) - clientTime ∧
    (performClockSync clientTime now0 now1 offset).adjustedTime =
      (now0 + offset) + ((now1 + offset) - clientTime) / 2 ∧
    (performClockSync clientTime now0 now1 offset).clockOffset = offset := by
  simp [performClockSync]

/-- Claim C8: repeated performClockSync calls with the same
clientSendTime against a non-advancing local clock and an unchanged
offset return a non-decreasing serverTime across the sequence. -/
theorem clock_sync_serverTime_nondecreasing (clientTime offset : ℚ) (clock : ℕ → ℚ)
    (hfrozen : ∀ k : ℕ, clock k = clock 0) (i j : ℕ) (hij : i ≤ j) :
    (performClockSync clientTime (clock i) (clock i) offset).serverTime ≤
    (performClockSync clientTime (clock j) (clock j) offset).serverTime := by
  rw [hfrozen i, hfrozen j]

/-- Claim C8 witness: two calls against the frozen clock value 500. -/
theorem clock_sync_serverTime_nondecreasing_witness :
    (performClockSync 1000 500 500 2).serverTime ≤
    (performClockSync 1000 500 500 2).serverTime :=
  clock_sync_serverTime_nondecreasing 1000 2 (fun _ => 500) (fun _ => rfl) 0 1 (Nat.zero_le 1)

/-- Claim C9: when no reference node is reachable (every clock-sync call
times out or fails), syncWithLeader leaves the whole manager state, in
particular clockOffset, at its previous value. -/
theorem sync_failure_preserves_offset (st : ManagerState)
    (net : Server → Option ClockSyncResult) (startTime endTime nowAtSet : ℚ)
    (hfail : ∀ s, net s = none) :
    syncWithLeader st net startTime endTime nowAtSet = st := by
  by_cases hl : st.isLeader
  · simp [syncWithLeader, hl]
  · simp only [syncWithLeader, hl, Bool.false_eq_true, if_false]
    cases servers.find? (fun s => s.id ≠ st.serverId) with
    | none => rfl
    | some leader => simp [hfail]

/-- Claim C9 witness: a follower with offset 7 keeps its state when the
sync call fails. -/
theorem sync_failure_preserves_offset_witness :
    syncWithLeader ⟨2, false, 0, 7⟩ (fun _ => none) 100 140 141 = ⟨2, false, 0, 7⟩ :=
  sync_failure_preserves_offset ⟨2, false, 0, 7⟩ (fun _ => none) 100 140 141 (fun _ => rfl)

/-! ## Claim theorems: replication -/

/-- Claim C1 counterexample: the same BookingCreated event delivered
twice to one peer does not produce duplicate rows.  Starting from an
empty bookings table, the first delivery inserts one row; the second
delivery of the identical event hits the UNIQUE constraint on
confirmation_id, the route answers with an error and the store keeps
exactly one row with that confirmation id. -/
theorem duplicate_booking_delivery_rejected_concrete :
    applyReplicatedBooking ⟨⟨[], 1⟩, [⟨1, 1, "09:00", true⟩]⟩
        ⟨1, "Alice", "09:00", "CONFAAA11", 123, 1⟩ 200
      = .ok ⟨⟨[⟨1, 1, "Alice", "09:00", "CONFAAA11", 200, 1⟩], 2⟩, [⟨1, 1, "09:00", false⟩]⟩ ∧
    applyReplicatedBooking
        ⟨⟨[⟨1, 1, "Alice", "09:00", "CONFAAA11", 200, 1⟩], 2⟩, [⟨1, 1, "09:00", false⟩]⟩
        ⟨1, "Alice", "09:00", "CONFAAA11", 123, 1⟩ 300
      = .error ("SQLITE_CONSTRAINT: UNIQUE constraint failed: bookings.confirmation_id") ∧
    ([⟨1, 1, "Alice", "09:00", "CONFAAA11", 200, 1⟩].filter
        (fun r : BookingRow => r.confirmation_id == "CONFAAA11")).length = 1 :=
  ⟨rfl, rfl, rfl⟩

/-- Claim C1 (amended): delivering the same BookingCreated event twice
to a peer does not duplicate the booking: after a first successful
delivery the store holds exactly one row with the event confirmation id,
and the second delivery is rejected by the UNIQUE constraint on
confirmation_id, so the handler reports an error instead of inserting a
second row. -/
theorem replicated_booking_second_delivery_errors (s s1 : PeerStore) (ev : BookingData)
    (now1 now2 : Int) (h : applyReplicatedBooking s ev now1 = .ok s1) :
    applyReplicatedBooking s1 ev now2
      = .error ("SQLITE_CONSTRAINT: UNIQUE constraint failed: bookings.confirmation_id") ∧
    (s1.bookings.rows.filter (fun r => r.confirmation_id == ev.confirmationId)).length = 1 := by
  rcases s with ⟨⟨rows, nextId⟩, slots⟩
  by_cases hany : rows.any (fun r => r.confirmation_id == ev.confirmationId)
  · exfalso
    simp [applyReplicatedBooking, createBooking, hany] at h
  · simp only [applyReplicatedBooking, createBooking, hany, Bool.false_eq_true, if_false,
      Except.ok.injEq] at h
    have hrows : s1.bookings.rows = rows ++
        [⟨nextId, ev.doctorId, ev.patientName, ev.slotTime, ev.confirmationId, now1, ev.serverId⟩] := by
      rw [← h]
    have hfilter : rows.filter (fun r => r.confirmation_id == ev.confirmationId) = [] := by
      rw [List.filter_eq_nil_iff]
      intro a ha hpa
      exact hany (List.any_eq_true.mpr ⟨a, ha, hpa⟩)
    constructor
    · have hany2 : s1.bookings.rows.any (fun r => r.confirmation_id == ev.confirmationId) = true := by
        rw [hrows]
        simp
      rcases s1 with ⟨⟨rows1, nextId1⟩, slots1⟩
      simp only [applyReplicatedBooking, createBooking]
      simp only at hany2
      simp [hany2]
    · rw [hrows, List.filter_append, hfilter]
      simp

/-- Claim C1 (amended) witness: the concrete two-delivery run of the
counterexample, obtained from the general theorem. -/
theorem replicated_booking_second_delivery_errors_witness :
    applyReplicatedBooking
        ⟨⟨[⟨1, 1, "Alice", "09:00", "CONFAAA11", 200, 1⟩], 2⟩, [⟨1, 1, "09:00", false⟩]⟩
        ⟨1, "Alice", "09:00", "CONFAAA11", 123, 1⟩ 300
      = .error ("SQLITE_CONSTRAINT: UNIQUE constraint failed: bookings.confirmation_id") ∧
    ([⟨1, 1, "Alice", "09:00", "CONFAAA11", 200, 1⟩].filter
        (fun r : BookingRow => r.confirmation_id == "CONFAAA11")).length = 1 :=
  replicated_booking_second_delivery_errors
    ⟨⟨[], 1⟩, [⟨1, 1, "09:00", true⟩]⟩
    ⟨⟨[⟨1, 1, "Alice", "09:00", "CONFAAA11", 200, 1⟩], 2⟩, [⟨1, 1, "09:00", false⟩]⟩
    ⟨1, "Alice", "09:00", "CONFAAA11", 123, 1⟩ 200 300 rfl

/-! ## Replication fan-out lemmas -/

lemma replicate_foldl_preserve (ev : BookingData) (reachable : Nat → Bool)
    (nowAt : Nat → Int) (l : List Server) :
    ∀ (st : Nat → PeerStore) (p : Nat),
    (∀ s ∈ l, reachable s.id = true → s.id ≠ p) →
    l.foldl (replicateStep ev reachable nowAt) st p = st p := by
  induction l with
  | nil =>
    intro st p _
    rfl
  | cons s rest ih =>
    intro st p h
    have hstep : replicateStep ev reachable nowAt st s p = st p := by
      unfold replicateStep
      by_cases hr : reachable s.id
      · simp only [hr, if_true]
        rw [if_neg]
        intro hps
        exact (h s (by simp) hr) hps.symm
      · simp [hr]
    calc (s :: rest).foldl (replicateStep ev reachable nowAt) st p
        = rest.foldl (replicateStep ev reachable nowAt)
            (replicateStep ev reachable nowAt st s) p := rfl
      _ = (replicateStep ev reachable nowAt st s) p :=
          ih _ p (fun t ht htr => h t (by simp [ht]) htr)
      _ = st p := hstep

lemma replicate_foldl_deliver (ev : BookingData) (reachable : Nat → Bool)
    (nowAt : Nat → Int) (l : List Server) :
    ∀ (st : Nat → PeerStore) (s : Server),
    l.Pairwise (fun a b => a.id ≠ b.id) → s ∈ l → reachable s.id = true →
    l.foldl (replicateStep ev reachable nowAt) st s.id
      = deliverTo (st s.id) ev (nowAt s.id) := by
  induction l with
  | nil =>
    intro st s _ hmem _
    simp at hmem
  | cons t rest ih =>
    intro st s hpw hmem hr
    obtain ⟨hhead, hpw2⟩ := List.pairwise_cons.mp hpw
    rcases List.mem_cons.mp hmem with rfl | hmem2
    · have hstep : replicateStep ev reachable nowAt st s s.id
          = deliverTo (st s.id) ev (nowAt s.id) := by
        simp [replicateStep, hr]
      calc (s :: rest).foldl (replicateStep ev reachable nowAt) st s.id
          = rest.foldl (replicateStep ev reachable nowAt)
              (replicateStep ev reachable nowAt st s) s.id := rfl
        _ = (replicateStep ev reachable nowAt st s) s.id :=
            replicate_foldl_preserve ev reachable nowAt rest _ s.id
              (fun u hu _ => (hhead u hu).symm)
        _ = deliverTo (st s.id) ev (nowAt s.id) := hstep
    · have hst : (replicateStep ev reachable nowAt st t) s.id = st s.id := by
        unfold replicateStep
        by_cases hrt : reachable t.id
        · simp only [hrt, if_true]
          rw [if_neg]
          exact fun hq => (hhead s hmem2) hq.symm
        · simp [hrt]
      calc (t :: rest).foldl (replicateStep ev reachable nowAt) st s.id
          = rest.foldl (replicateStep ev reachable nowAt)
              (replicateStep ev reachable nowAt st t) s.id := rfl
        _ = deliverTo ((replicateStep ev reachable nowAt st t) s.id) ev (nowAt s.id) :=
            ih _ s hpw2 hmem2 hr
        _ = deliverTo (st s.id) ev (nowAt s.id) := by rw [hst]

lemma servers_ids_pairwise : servers.Pairwise (fun a b => a.id ≠ b.id) := by
  decide

lemma otherServers_ids_pairwise (selfId : Nat) :
    (otherServers selfId).Pairwise (fun a b => a.id ≠ b.id) :=
  servers_ids_pairwise.filter _

lemma slot_foldl_preserve (doctorId : Nat) (slotTime : String) (reachable : Nat → Bool)
    (l : List Server) : ∀ (st : Nat → PeerStore) (p : Nat),
    (∀ s ∈ l, reachable s.id = true → s.id ≠ p) →
    l.foldl (replicateSlotStep doctorId slotTime reachable) st p = st p := by
  induction l with
  | nil =>
    intro st p _
    rfl
  | cons s rest ih =>
    intro st p h
    have hstep : replicateSlotStep doctorId slotTime reachable st s p = st p := by
      unfold replicateSlotStep
      by_cases hr : reachable s.id
      · simp only [hr, if_true]
        rw [if_neg]
        intro hps
        exact (h s (by simp) hr) hps.symm
      · simp [hr]
    calc (s :: rest).foldl (replicateSlotStep doctorId slotTime reachable) st p
        = rest.foldl (replicateSlotStep doctorId slotTime reachable)
            (replicateSlotStep doctorId slotTime reachable st s) p := rfl
      _ = (replicateSlotStep doctorId slotTime reachable st s) p :=
          ih _ p (fun t ht htr => h t (by simp [ht]) htr)
      _ = st p := hstep

lemma slot_foldl_deliver (doctorId : Nat) (slotTime : String) (reachable : Nat → Bool)
    (l : List Server) : ∀ (st : Nat → PeerStore) (s : Server),
    l.Pairwise (fun a b => a.id ≠ b.id) → s ∈ l → reachable s.id = true →
    l.foldl (replicateSlotStep doctorId slotTime reachable) st s.id
      = applyReplicatedSlot (st s.id) doctorId slotTime := by
  induction l with
  | nil =>
    intro st s _ hmem _
    simp at hmem
  | cons t rest ih =>
    intro st s hpw hmem hr
    obtain ⟨hhead, hpw2⟩ := List.pairwise_cons.mp hpw
    rcases List.mem_cons.mp hmem with rfl | hmem2
    · have hstep : replicateSlotStep doctorId slotTime reachable st s s.id
          = applyReplicatedSlot (st s.id) doctorId slotTime := by
        simp [replicateSlotStep, hr]
      calc (s :: rest).foldl (replicateSlotStep doctorId slotTime reachable) st s.id
          = rest.foldl (replicateSlotStep doctorId slotTime reachable)
              (replicateSlotStep doctorId slotTime reachable st s) s.id := rfl
        _ = (replicateSlotStep doctorId slotTime reachable st s) s.id :=
            slot_foldl_preserve doctorId slotTime reachable rest _ s.id
              (fun u hu _ => (hhead u hu).symm)
        _ = applyReplicatedSlot (st s.id) doctorId slotTime := hstep
    · have hst : (replicateSlotStep doctorId slotTime reachable st t) s.id = st s.id := by
        unfold replicateSlotStep
        by_cases hrt : reachable t.id
        · simp only [hrt, if_true]
          rw [if_neg]
          exact fun hq => (hhead s hmem2) hq.symm
        · simp [hrt]
      calc (t :: rest).foldl (replicateSlotStep doctorId slotTime reachable) st s.id
          = rest.foldl (replicateSlotStep doctorId slotTime reachable)
              (replicateSlotStep doctorId slotTime reachable st t) s.id := rfl
        _ = applyReplicatedSlot ((replicateSlotStep doctorId slotTime reachable st t) s.id)
              doctorId slotTime := ih _ s hpw2 hmem2 hr
        _ = applyReplicatedSlot (st s.id) doctorId slotTime := by rw [hst]

/-- Claim C6: for every ReplicationEvent — a BookingCreated event fanned
out by replicateBooking or a SlotMarkedUnavailable event fanned out by
replicateSlotUpdate — the dispatcher visits every server except self
sequentially; for any pattern of unreachable peers, an unreachable peer
keeps its store unchanged, the store of the origin node (its
already-committed local write) is never touched, and every reachable
peer receives the event exactly as if it were the only target — so
per-peer failures affect neither the other deliveries nor the local
write, and the fold always returns a value (every per-peer error is
absorbed, never rethrown). -/
theorem replicate_event_failure_isolation (selfId : Nat) (ev : ReplicationEvent)
    (reachable : Nat → Bool) (nowAt : Nat → Int) (stores : Nat → PeerStore) :
    (∀ p : Nat, reachable p = false →
      replicate selfId ev reachable nowAt stores p = stores p) ∧
    replicate selfId ev reachable nowAt stores selfId = stores selfId ∧
    (∀ s ∈ otherServers selfId, reachable s.id = true →
      replicate selfId ev reachable nowAt stores s.id
        = deliverEvent (stores s.id) ev (nowAt s.id)) := by
  cases ev with
  | bookingCreated b =>
    refine ⟨?_, ?_, ?_⟩
    · intro p hp
      refine replicate_foldl_preserve b reachable nowAt _ stores p ?_
      intro s _ hr he
      rw [he, hp] at hr
      simp at hr
    · refine replicate_foldl_preserve b reachable nowAt _ stores selfId ?_
      intro s hs _
      exact of_decide_eq_true (List.mem_filter.mp hs).2
    · intro s hs hr
      exact replicate_foldl_deliver b reachable nowAt _ stores s
        (otherServers_ids_pairwise selfId) hs hr
  | slotMarkedUnavailable doctorId slotTime =>
    refine ⟨?_, ?_, ?_⟩
    · intro p hp
      refine slot_foldl_preserve doctorId slotTime reachable _ stores p ?_
      intro s _ hr he
      rw [he, hp] at hr
      simp at hr
    · refine slot_foldl_preserve doctorId slotTime reachable _ stores selfId ?_
      intro s hs _
      exact of_decide_eq_true (List.mem_filter.mp hs).2
    · intro s hs hr
      exact slot_foldl_deliver doctorId slotTime reachable _ stores s
        (otherServers_ids_pairwise selfId) hs hr

/-- Claim C6 witness: origin 1 replicates to peers 2 and 3 with peer 3
unreachable, for both event kinds: peer 3 and the origin keep their
stores, peer 2 receives the delivery. -/
theorem replicate_event_failure_isolation_witness :
    replicate 1 (.bookingCreated ⟨1, "Alice", "09:00", "CONFAAA11", 123, 1⟩) (fun p => p == 2)
        (fun _ => 400) (fun _ => ⟨⟨[], 1⟩, []⟩) 3 = ⟨⟨[], 1⟩, []⟩ ∧
    replicate 1 (.bookingCreated ⟨1, "Alice", "09:00", "CONFAAA11", 123, 1⟩) (fun p => p == 2)
        (fun _ => 400) (fun _ => ⟨⟨[], 1⟩, []⟩) 1 = ⟨⟨[], 1⟩, []⟩ ∧
    replicate 1 (.bookingCreated ⟨1, "Alice", "09:00", "CONFAAA11", 123, 1⟩) (fun p => p == 2)
        (fun _ => 400) (fun _ => ⟨⟨[], 1⟩, []⟩) 2
      = deliverEvent ⟨⟨[], 1⟩, []⟩ (.bookingCreated ⟨1, "Alice", "09:00", "CONFAAA11", 123, 1⟩) 400 ∧
    replicate 1 (.slotMarkedUnavailable 1 ("09:00")) (fun p => p == 2)
        (fun _ => 400) (fun _ => ⟨⟨[], 1⟩, [⟨1, 1, "09:00", true⟩]⟩) 3
      = ⟨⟨[], 1⟩, [⟨1, 1, "09:00", true⟩]⟩ ∧
    replicate 1 (.slotMarkedUnavailable 1 ("09:00")) (fun p => p == 2)
        (fun _ => 400) (fun _ => ⟨⟨[], 1⟩, [⟨1, 1, "09:00", true⟩]⟩) 2
      = deliverEvent ⟨⟨[], 1⟩, [⟨1, 1, "09:00", true⟩]⟩ (.slotMarkedUnavailable 1 ("09:00")) 400 :=
  ⟨(replicate_event_failure_isolation 1 (.bookingCreated ⟨1, "Alice", "09:00", "CONFAAA11", 123, 1⟩)
      (fun p => p == 2) (fun _ => 400) (fun _ => ⟨⟨[], 1⟩, []⟩)).1 3 rfl,
   (replicate_event_failure_isolation 1 (.bookingCreated ⟨1, "Alice", "09:00", "CONFAAA11", 123, 1⟩)
      (fun p => p == 2) (fun _ => 400) (fun _ => ⟨⟨[], 1⟩, []⟩)).2.1,
   (replicate_event_failure_isolation 1 (.bookingCreated ⟨1, "Alice", "09:00", "CONFAAA11", 123, 1⟩)
      (fun p => p == 2) (fun _ => 400) (fun _ => ⟨⟨[], 1⟩, []⟩)).2.2
      ⟨2, "Server-Delhi", 5002⟩ (by decide) rfl,
   (replicate_event_failure_isolation 1 (.slotMarkedUnavailable 1 ("09:00"))
      (fun p => p == 2) (fun _ => 400) (fun _ => ⟨⟨[], 1⟩, [⟨1, 1, "09:00", true⟩]⟩)).1 3 rfl,
   (replicate_event_failure_isolation 1 (.slotMarkedUnavailable 1 ("09:00"))
      (fun p => p == 2) (fun _ => 400) (fun _ => ⟨⟨[], 1⟩, [⟨1, 1, "09:00", true⟩]⟩)).2.2
      ⟨2, "Server-Delhi", 5002⟩ (by decide) rfl⟩

/-! ## Claim theorems: status snapshot -/

/-- Claim C5 counterexample: node 2 holds live clock offset 7 (its own
snapshot reports 7 in its own entry), but the snapshot taken at node 1
reports clock offset 0 for peer 2 — not any value peer 2 wrote: the
servers table has no clock-offset column at all, and getServerStatus
hard-codes 0 for every row other than the own one. -/
theorem snapshot_peer_clock_offset_counterexample :
    ((getServerStatus ⟨1, false, 3, 5⟩
        [⟨1, "Server-Mumbai", 5001, 3, 0, 50, "active"⟩,
         ⟨2, "Server-Delhi", 5002, 9, 1, 60, "active"⟩])[1]?).map
      (fun e => e.clockOffset) = some 0 ∧
    ((getServerStatus ⟨2, false, 4, 7⟩
        [⟨1, "Server-Mumbai", 5001, 3, 0, 50, "active"⟩,
         ⟨2, "Server-Delhi", 5002, 9, 1, 60, "active"⟩])[1]?).map
      (fun e => e.clockOffset) = some 7 :=
  ⟨rfl, rfl⟩

/-- Claim C5 (amended): each snapshot entry comes from one stored row;
the own entry carries the live in-memory connections and clock offset of
the reporting node, while a peer entry takes connections, leader flag,
last heartbeat and status from the stored row of that peer and always
reports clock offset 0, the store recording no clock offset. -/
theorem snapshot_entry_fields (st : ManagerState) (rows : List ServerRow)
    (r : ServerRow) (hr : r ∈ rows) :
    statusEntry st r ∈ getServerStatus st rows ∧
    ((statusEntry st r).isLeader = true ↔ r.is_leader = 1) ∧
    (statusEntry st r).lastHeartbeat = r.last_heartbeat ∧
    (statusEntry st r).status = r.status ∧
    (r.id = st.serverId →
      (statusEntry st r).connections = st.connections ∧
      (statusEntry st r).clockOffset = st.clockOffset) ∧
    (r.id ≠ st.serverId →
      (statusEntry st r).connections = r.connections ∧
      (statusEntry st r).clockOffset = 0) := by
  refine ⟨?_, ?_, rfl, rfl, ?_, ?_⟩
  · unfold getServerStatus
    exact List.mem_map_of_mem _ hr
  · simp [statusEntry]
  · intro h
    simp [statusEntry, h]
  · intro h
    simp [statusEntry, h]

/-- Claim C5 (amended) witness: at node 1 with live connections 3 and
offset 5, the entry of peer row 2 takes connections 9 from the store and
offset 0, while the own entry of row 1 takes the live values. -/
theorem snapshot_entry_fields_witness :
    (statusEntry ⟨1, false, 3, 5⟩ ⟨2, "Server-Delhi", 5002, 9, 1, 60, "active"⟩).connections = 9 ∧
    (statusEntry ⟨1, false, 3, 5⟩ ⟨2, "Server-Delhi", 5002, 9, 1, 60, "active"⟩).clockOffset = 0 ∧
    (statusEntry ⟨1, false, 3, 5⟩ ⟨1, "Server-Mumbai", 5001, 8, 0, 50, "active"⟩).connections = 3 ∧
    (statusEntry ⟨1, false, 3, 5⟩ ⟨1, "Server-Mumbai", 5001, 8, 0, 50, "active"⟩).clockOffset = 5 :=
  ⟨((snapshot_entry_fields ⟨1, false, 3, 5⟩
      [⟨1, "Server-Mumbai", 5001, 8, 0, 50, "active"⟩, ⟨2, "Server-Delhi", 5002, 9, 1, 60, "active"⟩]
      ⟨2, "Server-Delhi", 5002, 9, 1, 60, "active"⟩ (by decide)).2.2.2.2.2 (by decide)).1,
   ((snapshot_entry_fields ⟨1, false, 3, 5⟩
      [⟨1, "Server-Mumbai", 5001, 8, 0, 50, "active"⟩, ⟨2, "Server-Delhi", 5002, 9, 1, 60, "active"⟩]
      ⟨2, "Server-Delhi", 5002, 9, 1, 60, "active"⟩ (by decide)).2.2.2.2.2 (by decide)).2,
   ((snapshot_entry_fields ⟨1, false, 3, 5⟩
      [⟨1, "Server-Mumbai", 5001, 8, 0, 50, "active"⟩, ⟨2, "Server-Delhi", 5002, 9, 1, 60, "active"⟩]
      ⟨1, "Server-Mumbai", 5001, 8, 0, 50, "active"⟩ (by decide)).2.2.2.2.1 rfl).1,
   ((snapshot_entry_fields ⟨1, false, 3, 5⟩
      [⟨1, "Server-Mumbai", 5001, 8, 0, 50, "active"⟩, ⟨2, "Server-Delhi", 5002, 9, 1, 60, "active"⟩]
      ⟨1, "Server-Mumbai", 5001, 8, 0, 50, "active"⟩ (by decide)).2.2.2.2.1 rfl).2⟩

/-! ## Claim theorems: leader designation invariant -/

lemma setLeader_eq_map (rows : List ServerRow) (sid : Nat) :
    setLeader rows sid = rows.map (fun r =>
      if r.id = sid then { r with is_leader := 1 } else { r with is_leader := 0 }) := by
  unfold setLeader clearLeaders
  rw [List.map_map]
  apply List.map_congr_left
  intro r _
  by_cases h : r.id = sid <;> simp [Function.comp, h]

lemma becomeLeaderStore_eq_map (rows : List ServerRow) (sid conn : Nat) (now : Int) :
    becomeLeaderStore rows sid conn now = rows.map (fun r =>
      if r.id = sid then
        { r with connections := conn, is_leader := 1, last_heartbeat := now, status := "active" }
      else { r with is_leader := 0 }) := by
  unfold becomeLeaderStore updateServerStatus
  rw [setLeader_eq_map, List.map_map]
  apply List.map_congr_left
  intro r _
  by_cases h : r.id = sid <;> simp [Function.comp, h]

lemma map_filter_leader_le_one (sid : Nat) (f : ServerRow → ServerRow)
    (hf : ∀ r, (f r).is_leader = 1 → r.id = sid) :
    ∀ rows : List ServerRow, rows.Pairwise (fun a b => a.id ≠ b.id) →
    ((rows.map f).filter (fun t => t.is_leader == 1)).length ≤ 1 := by
  intro rows
  induction rows with
  | nil =>
    intro _
    simp
  | cons r rest ih =>
    intro hids
    obtain ⟨hhead, hpw⟩ := List.pairwise_cons.mp hids
    simp only [List.map_cons, List.filter_cons]
    by_cases hflag : ((f r).is_leader == 1) = true
    · have hid : r.id = sid := hf r (by simpa using hflag)
      have hrest : ((rest.map f).filter (fun t => t.is_leader == 1)) = [] := by
        rw [List.filter_eq_nil_iff]
        intro t ht hp
        obtain ⟨t0, ht0, rfl⟩ := List.mem_map.mp ht
        have ht0id : t0.id = sid := hf t0 (by simpa using hp)
        exact (hhead t0 ht0) (hid.trans ht0id.symm)
      simp [hflag, hrest]
    · simp only [hflag, Bool.false_eq_true, if_false]
      exact ih hpw

/-- Claim C10: a completed setLeader write leaves the servers table with
at most one row whose is_leader flag is set, whatever the previous flag
pattern, provided row ids are unique (the primary key); the same holds
for the full store effect of becomeLeader (setLeader followed by
updateServerStatus on the own row), and the leader-update route performs
exactly setLeader, so every leader-designation write preserves the
at-most-one-stored-leader invariant. -/
theorem setLeader_at_most_one_leader (rows : List ServerRow) (serverId conn : Nat)
    (now : Int) (hids : rows.Pairwise (fun a b => a.id ≠ b.id)) :
    (leaderRows (setLeader rows serverId)).length ≤ 1 ∧
    (leaderRows (becomeLeaderStore rows serverId conn now)).length ≤ 1 := by
  constructor
  · rw [leaderRows, setLeader_eq_map]
    refine map_filter_leader_le_one serverId _ ?_ rows hids
    intro r h
    by_cases hid : r.id = serverId
    · exact hid
    · exfalso
      simp [hid] at h
  · rw [leaderRows, becomeLeaderStore_eq_map]
    refine map_filter_leader_le_one serverId _ ?_ rows hids
    intro r h
    by_cases hid : r.id = serverId
    · exact hid
    · exfalso
      simp [hid] at h

/-- Claim C10 witness: a table that starts with two flagged rows ends
with at most one after setLeader 2, and after the becomeLeader write. -/
theorem setLeader_at_most_one_leader_witness :
    (leaderRows (setLeader
      [⟨1, "Server-Mumbai", 5001, 0, 1, 10, "active"⟩,
       ⟨2, "Server-Delhi", 5002, 0, 1, 20, "active"⟩,
       ⟨3, "Server-Bangalore", 5003, 0, 0, 30, "active"⟩] 2)).length ≤ 1 ∧
    (leaderRows (becomeLeaderStore
      [⟨1, "Server-Mumbai", 5001, 0, 1, 10, "active"⟩,
       ⟨2, "Server-Delhi", 5002, 0, 1, 20, "active"⟩,
       ⟨3, "Server-Bangalore", 5003, 0, 0, 30, "active"⟩] 2 4 99)).length ≤ 1 :=
  setLeader_at_most_one_leader
    [⟨1, "Server-Mumbai", 5001, 0, 1, 10, "active"⟩,
     ⟨2, "Server-Delhi", 5002, 0, 1, 20, "active"⟩,
     ⟨3, "Server-Bangalore", 5003, 0, 0, 30, "active"⟩] 2 4 99 (by decide)

end DC
